import Mathlib

/-
  Verification development for the MultiAgents repository
  (src/MultiAgents.py, a single Streamlit page).

  Shallow embedding: the module-level startup (lines 17-81), the
  CSVAnalysisTool (lines 22-29), the Run Analysis button handler
  (lines 137-189), the Past Results display (lines 192-198) and the
  export section (lines 200-216) are embedded as pure Lean functions.
  External collaborators (the agno agent framework, pandas, the Groq
  API) are opaque request/response boxes: each external call is a
  parameter of the embedding, given as an Except value (either the
  returned data or the raised exception message), and the returned
  response object with its optional textual content attribute is
  reframed as Option String, following the repository spec, section 9.
-/

namespace MultiAgents

/-- Python str.isspace characters relevant to str.strip: the ASCII
whitespace stripped by topic.strip() at line 138. -/
def pyIsSpace (c : Char) : Bool :=
  c = ' ' || c = '\t' || c = '\n' || c = '\r' || c = '\x0b' || c = '\x0c'

/-- Truthiness of topic.strip() (line 138): true exactly when the string
contains some non-whitespace character, i.e. the stripped string is
non-empty. -/
def stripTruthy (s : String) : Bool :=
  s.toList.any (fun c => ! pyIsSpace c)

/-- Agent configuration, mirroring the keyword arguments of the agno
Agent constructor as used at lines 32-70: tools are recorded by the
names of the tool classes bound to the agent. -/
structure Agent where
  name : String
  role : String
  model : String
  tools : List String
  instructions : String
  show_tool_calls : Bool
  markdown : Bool
deriving DecidableEq, Repr

/-- Team configuration, mirroring the agno Team constructor as used at
lines 73-81. -/
structure Team where
  name : String
  mode : String
  model : String
  members : List Agent
  instructions : List String
  show_tool_calls : Bool
  markdown : Bool
deriving DecidableEq, Repr

/-- news_agent (lines 32-40). -/
def news_agent : Agent where
  name := "News Analyst 📰"
  role := "Find recent sustainability news"
  model := "qwen/qwen3-32b"
  tools := ["GoogleSearchTools"]
  instructions := "Search for city-level green projects in the past year."
  show_tool_calls := true
  markdown := true

/-- data_agent (lines 42-50): its single tool is the local
CSVAnalysisTool instance. -/
def data_agent : Agent where
  name := "Data Analyst 📊"
  role := "Analyze environmental datasets"
  model := "qwen/qwen3-32b"
  tools := ["CSVAnalysisTool"]
  instructions := "Read and summarize air quality/environmental CSV data trends."
  show_tool_calls := true
  markdown := true

/-- policy_agent (lines 52-60). -/
def policy_agent : Agent where
  name := "Policy Reviewer 🏛️"
  role := "Summarize government sustainability policies"
  model := "qwen/qwen3-32b"
  tools := ["GoogleSearchTools"]
  instructions := "Search official government sites for city sustainability policy updates."
  show_tool_calls := true
  markdown := true

/-- innovation_agent (lines 62-70). -/
def innovation_agent : Agent where
  name := "Innovations Scout 💡"
  role := "Find innovative green tech ideas"
  model := "qwen/qwen3-32b"
  tools := ["HackerNewsTools", "GoogleSearchTools"]
  instructions := "Search for innovative urban sustainability technologies."
  show_tool_calls := true
  markdown := true

/-- taskforce_team (lines 73-81). -/
def taskforce_team : Team where
  name := "🌱 Sustainability Task Force"
  mode := "collaborate"
  model := "qwen/qwen3-32b"
  members := [news_agent, data_agent, policy_agent, innovation_agent]
  instructions := ["Work together to propose a sustainability plan for the city."]
  show_tool_calls := true
  markdown := true

/-- Abstract stand-in for a pandas DataFrame produced by pd.read_csv;
only its identity matters to the embedded control flow. -/
structure DataFrame where
  columns : List String
deriving DecidableEq, Repr

/-- CSVAnalysisTool.run (lines 22-29). The external pandas work inside
the try block (pd.read_csv followed by df.describe().to_markdown()) is
a parameter: Except.ok carries the loaded frame and its markdown
summary, Except.error carries the message of the exception raised by
the load/parse. The embedded function is total: every outcome,
including the error outcome, yields a returned pair, matching that the
except clause at lines 28-29 catches every Exception and returns. -/
def CSVAnalysisTool.run (pandas : Except String (DataFrame × String)) :
    String × Option DataFrame :=
  match pandas with
  | Except.ok (df, summary) => ("📊 Data Analysis Summary:\n" ++ summary, some df)
  | Except.error e => ("❌ Error analyzing dataset: " ++ e, none)

/-- Everything the startup prefix of the script (lines 17-81) leaves
behind: either the exception message the page runtime displays when a
line raised, or the list of agent/team names constructed. -/
structure StartupTrace where
  haltedWith : Option String
  agentsConstructed : List String
deriving DecidableEq, Repr

/-- Module-level startup (lines 17-81). Line 19 runs
os.environ assignment of os.getenv result; when GROQ_API_KEY is absent
(after load_dotenv), os.getenv returns None and the assignment raises
TypeError with message str expected, not NoneType, so the script halts
there and the page runtime presents the uncaught exception; the agent
constructions at lines 32-81 never execute. When the key is present
the assignment succeeds and all four agents and the team are
constructed. -/
def startupScript (groqApiKey : Option String) : StartupTrace :=
  match groqApiKey with
  | none => ⟨some "str expected, not NoneType", []⟩
  | some _ =>
      ⟨none,
       [news_agent.name, data_agent.name, policy_agent.name,
        innovation_agent.name, taskforce_team.name]⟩

/-- One entry of st.session_state.history, appended at lines 178-183. -/
structure HistoryEntry where
  time : String
  agent : String
  topic : String
  result : String
deriving DecidableEq, Repr

/-- Elements the run-button handler can render to the page. -/
inductive Shown where
  | dataReport (text : String) (chartShown : Bool)
  | agentResultCard (header : String) (content : String)
  | warnEmpty
  | warnNoContent
  | errorMsg (msg : String)
deriving DecidableEq, Repr

/-- User-provided inputs of one click on the Run Analysis button:
the sidebar selection, the text area content, the optional uploaded
CSV bytes, and the clock reading used for the history timestamp. -/
structure RunInput where
  agentChoice : String
  topic : String
  uploadedFile : Option String
  time : String
deriving DecidableEq, Repr

/-- Outcomes of the external calls a click may perform:
agentResult is what selected_agent.run(topic) does (raises with a
message, or returns a response whose optional content attribute is
the Option String); pandas is the outcome of the pd.read_csv and
describe work inside CSVAnalysisTool.run; plot is the outcome of the
chart-drawing block at lines 153-156 on the loaded frame — the
select_dtypes plot call raises, for instance, TypeError with message
no numeric data to plot when the frame has no numeric columns, even
though the frame itself loaded fine. -/
structure External where
  agentResult : Except String (Option String)
  pandas : Except String (DataFrame × String)
  plot : Except String Unit

/-- Observable effects of one click on the Run Analysis button. -/
structure RunOutcome where
  shown : List Shown
  history : List HistoryEntry
  fileWritten : Option (String × String)
  agentRunCalled : Bool
  csvToolCalledOn : Option String
deriving Repr

/-- The Data Analyst upload branch condition at line 141 (and the
second disjunct of the guard at line 138). -/
def isDataBranch (inp : RunInput) : Bool :=
  inp.agentChoice == "Data Analyst 📊" && inp.uploadedFile.isSome

/-- The run guard at line 138: topic.strip() truthy, or the Data
Analyst is selected with an uploaded file. -/
def guardPasses (inp : RunInput) : Bool :=
  stripTruthy inp.topic || isDataBranch inp

/-- Rendering of the Data Analyst report (lines 147-157), inside the
try block: the report text returned by the tool is rendered at
line 149 before any chart work; when the returned frame is None the
line-152 guard skips the chart; when the frame is not None the
plotting block at lines 153-156 runs and, when it raises, the
exception propagates to the except at line 186 and its message is
shown as an error instead of the chart — the already-rendered report
text stays on the page. -/
def dataBranchShown (rd : String × Option DataFrame)
    (plot : Except String Unit) : List Shown :=
  match rd.2 with
  | none => [Shown.dataReport rd.1 false]
  | some _ =>
      match plot with
      | Except.ok _ => [Shown.dataReport rd.1 true]
      | Except.error e =>
          [Shown.dataReport rd.1 false, Shown.errorMsg ("❌ Error: " ++ e)]

/-- One execution of the Run Analysis button handler (lines 137-189),
acting on the current session history. In the Data Analyst upload
branch the uploaded bytes are written to tmp_uploaded.csv and the CSV
tool is invoked directly on that path; the chart (lines 152-156) is
rendered when the returned frame is not None and the plotting call
succeeds, and a raising plot is caught at line 186. In the agent
branch the selected agent runs on the topic; the check at line 169
(result truthy and exposing a content attribute) is the presence of
the optional content, per the optional-content reframing of the
response object. -/
def runButton (inp : RunInput) (ext : External) (history : List HistoryEntry) :
    RunOutcome :=
  if guardPasses inp then
    if isDataBranch inp then
      ⟨dataBranchShown (CSVAnalysisTool.run ext.pandas) ext.plot, history,
       some ("tmp_uploaded.csv", inp.uploadedFile.getD ""), false,
       some "tmp_uploaded.csv"⟩
    else
      match ext.agentResult with
      | Except.error e =>
          ⟨[Shown.errorMsg ("❌ Error: " ++ e)], history, none, true, none⟩
      | Except.ok none =>
          ⟨[Shown.warnNoContent], history, none, true, none⟩
      | Except.ok (some c) =>
          ⟨[Shown.agentResultCard inp.agentChoice c],
           history ++ [⟨inp.time, inp.agentChoice, inp.topic, c⟩],
           none, true, none⟩
  else
    ⟨[Shown.warnEmpty], history, none, false, none⟩

/-- A click that reaches the history append at lines 178-183: the
guard passed, the agent branch (not the upload branch) ran, and the
agent call returned a response with content. -/
def isSuccessfulRun (r : RunInput × External) : Bool :=
  guardPasses r.1 && ! isDataBranch r.1 &&
    (match r.2.agentResult with
     | Except.ok (some _) => true
     | _ => false)

/-- The history entry a successful click appends (lines 178-183). -/
def entryOfRun (r : RunInput × External) : HistoryEntry :=
  match r.2.agentResult with
  | Except.ok (some c) => ⟨r.1.time, r.1.agentChoice, r.1.topic, c⟩
  | _ => ⟨r.1.time, r.1.agentChoice, r.1.topic, ""⟩

/-- A whole session: st.session_state.history starts empty
(lines 133-134) and each click transforms it through runButton. -/
def runSession (runs : List (RunInput × External)) : List HistoryEntry :=
  runs.foldl (fun h r => (runButton r.1 r.2 h).history) []

/-- Past Results display (lines 192-198): iterates
reversed(st.session_state.history), most recent first. -/
def pastResultsDisplay (history : List HistoryEntry) : List HistoryEntry :=
  history.reverse

/-- One st.download_button call of the export section. -/
structure DownloadButton where
  label : String
  data : String
  file_name : String
deriving DecidableEq, Repr

/-- Export section (lines 200-216): when the history is non-empty,
last_result is the result of history[-1] and both download buttons
offer exactly that data, under two file names. -/
def exportSection (history : List HistoryEntry) : List DownloadButton :=
  match history.getLast? with
  | none => []
  | some e =>
      [⟨"📄 Download as Markdown", e.result, "sustainability_report.md"⟩,
       ⟨"📝 Download as Text", e.result, "sustainability_report.txt"⟩]

/-- Caching or memoization directives guarding the agent/team
construction at lines 31-81: the construction is plain module-level
code; the file contains no st.cache_resource, st.cache_data or similar
directive, so this list is empty. -/
def registryCacheDirectives : List String := []

/-- The page runtime re-executes the whole script on every user
interaction (which is why line 133 guards the history initialization
behind a session_state membership test); each execution runs the
module-level construction at lines 31-81 once. This trace records, for
a process whose script ran scriptRuns times, the registry built by
each run. -/
def processRegistryTrace (scriptRuns : Nat) : List (List String) :=
  List.replicate scriptRuns
    [news_agent.name, data_agent.name, policy_agent.name,
     innovation_agent.name, taskforce_team.name]

/-- Number of times the agent registry is constructed in a process
whose script ran scriptRuns times. -/
def registryConstructions (scriptRuns : Nat) : Nat :=
  (processRegistryTrace scriptRuns).length

/-- Whether a run outcome rendered the trend chart of the Data Analyst
report (lines 152-156). -/
def chartRendered (o : RunOutcome) : Bool :=
  o.shown.any (fun s =>
    match s with
    | Shown.dataReport _ c => c
    | _ => false)

/-
  Theorems for the claims.
-/

/-- C1: If the GROQ_API_KEY environment variable is absent at startup,
page execution halts before any agent is constructed and a
user-visible error is presented; no default value is substituted and
no retry occurs. In the embedding: startup on the absent key yields
the TypeError message displayed by the page runtime and constructs no
agent. -/
theorem c1_missing_key_halts_before_agents :
    (startupScript none).haltedWith = some "str expected, not NoneType" ∧
    (startupScript none).agentsConstructed = [] :=
  ⟨rfl, rfl⟩

/-- C2 counterexample: with the Data Analyst selected and a file
uploaded, a click with a whitespace-only topic passes the guard at
line 138, so the handler runs the upload branch and no empty-input
warning is shown, refuting the claim that every empty or
whitespace-only query produces a warning and stays in Idle. -/
theorem c2_counterexample :
    stripTruthy "   " = false ∧
    (runButton ⟨"Data Analyst 📊", "   ", some "a,b", "09:00:00"⟩
        ⟨Except.ok none, Except.error "boom", Except.ok ()⟩ []).shown ≠ [Shown.warnEmpty] := by
  decide

/-- C2 amended: for every click with an empty or whitespace-only topic
in which the Data Analyst upload branch is not available (not the Data
Analyst with an uploaded file), no external agent call is made, the
empty-input warning is shown, nothing is written or analyzed, and the
history is unchanged, so the page stays in Idle. -/
theorem c2_empty_topic_warns (inp : RunInput) (ext : External)
    (h : List HistoryEntry) (h1 : stripTruthy inp.topic = false)
    (h2 : isDataBranch inp = false) :
    (runButton inp ext h).shown = [Shown.warnEmpty] ∧
    (runButton inp ext h).agentRunCalled = false ∧
    (runButton inp ext h).history = h ∧
    (runButton inp ext h).fileWritten = none ∧
    (runButton inp ext h).csvToolCalledOn = none := by
  simp [runButton, guardPasses, h1, h2]

/-- C2 amended, witness at a concrete whitespace-only click. -/
theorem c2_empty_topic_warns_witness :
    stripTruthy " " = false ∧
    (runButton ⟨"News Analyst 📰", " ", none, "09:00:00"⟩
        ⟨Except.ok (some "x"), Except.error "y", Except.ok ()⟩ []).shown = [Shown.warnEmpty] :=
  ⟨by decide,
   (c2_empty_topic_warns ⟨"News Analyst 📰", " ", none, "09:00:00"⟩
     ⟨Except.ok (some "x"), Except.error "y", Except.ok ()⟩ [] (by decide) (by decide)).1⟩

/-- C3: for every run in which the selected agent run call returns an
object exposing textual content (the agent branch ran and the call
returned content c), exactly that content is rendered, and the entry
made of the time, the agent label, the topic and the result text is
appended to the session history. -/
theorem c3_content_rendered_and_appended (inp : RunInput) (ext : External)
    (h : List HistoryEntry) (c : String) (hg : guardPasses inp = true)
    (hd : isDataBranch inp = false)
    (hr : ext.agentResult = Except.ok (some c)) :
    (runButton inp ext h).shown = [Shown.agentResultCard inp.agentChoice c] ∧
    (runButton inp ext h).history =
      h ++ [⟨inp.time, inp.agentChoice, inp.topic, c⟩] := by
  simp [runButton, hg, hd, hr]

/-- C3 witness at a concrete successful run. -/
theorem c3_content_rendered_and_appended_witness :
    (runButton ⟨"News Analyst 📰", "air quality", none, "10:00:00"⟩
        ⟨Except.ok (some "All good"), Except.error "unused", Except.ok ()⟩ []).shown =
      [Shown.agentResultCard "News Analyst 📰" "All good"] ∧
    (runButton ⟨"News Analyst 📰", "air quality", none, "10:00:00"⟩
        ⟨Except.ok (some "All good"), Except.error "unused", Except.ok ()⟩ []).history =
      [] ++ [⟨"10:00:00", "News Analyst 📰", "air quality", "All good"⟩] :=
  c3_content_rendered_and_appended
    ⟨"News Analyst 📰", "air quality", none, "10:00:00"⟩
    ⟨Except.ok (some "All good"), Except.error "unused", Except.ok ()⟩ [] "All good"
    (by decide) (by decide) rfl

/-- C4: for every run in which the external call returns but the
result lacks textual content, the no-content warning is shown (a
warning, not an error) and nothing is appended to the history. -/
theorem c4_no_content_warns_no_append (inp : RunInput) (ext : External)
    (h : List HistoryEntry) (hg : guardPasses inp = true)
    (hd : isDataBranch inp = false) (hr : ext.agentResult = Except.ok none) :
    (runButton inp ext h).shown = [Shown.warnNoContent] ∧
    (runButton inp ext h).history = h := by
  simp [runButton, hg, hd, hr]

/-- C4 witness at a concrete content-less run. -/
theorem c4_no_content_warns_no_append_witness :
    (runButton ⟨"Policy Reviewer 🏛️", "policy", none, "10:05:00"⟩
        ⟨Except.ok none, Except.error "unused", Except.ok ()⟩ []).shown =
      [Shown.warnNoContent] ∧
    (runButton ⟨"Policy Reviewer 🏛️", "policy", none, "10:05:00"⟩
        ⟨Except.ok none, Except.error "unused", Except.ok ()⟩ []).history = [] :=
  c4_no_content_warns_no_append
    ⟨"Policy Reviewer 🏛️", "policy", none, "10:05:00"⟩
    ⟨Except.ok none, Except.error "unused", Except.ok ()⟩ [] (by decide) (by decide) rfl

/-- C5: for every run in which the external call raises an exception,
the exception message is shown as an error (prefixed as at line 187)
and the history is unchanged. -/
theorem c5_exception_shows_error_no_append (inp : RunInput) (ext : External)
    (h : List HistoryEntry) (e : String) (hg : guardPasses inp = true)
    (hd : isDataBranch inp = false) (hr : ext.agentResult = Except.error e) :
    (runButton inp ext h).shown = [Shown.errorMsg ("❌ Error: " ++ e)] ∧
    (runButton inp ext h).history = h := by
  simp [runButton, hg, hd, hr]

/-- C5 witness at a concrete raising run. -/
theorem c5_exception_shows_error_no_append_witness :
    (runButton ⟨"Innovations Scout 💡", "tech", none, "10:10:00"⟩
        ⟨Except.error "rate limited", Except.error "unused", Except.ok ()⟩ []).shown =
      [Shown.errorMsg ("❌ Error: " ++ "rate limited")] ∧
    (runButton ⟨"Innovations Scout 💡", "tech", none, "10:10:00"⟩
        ⟨Except.error "rate limited", Except.error "unused", Except.ok ()⟩ []).history = [] :=
  c5_exception_shows_error_no_append
    ⟨"Innovations Scout 💡", "tech", none, "10:10:00"⟩
    ⟨Except.error "rate limited", Except.error "unused", Except.ok ()⟩ [] "rate limited"
    (by decide) (by decide) rfl

/-- Helper: the history after one click is the old history, with the
entry of the click appended exactly when the click was a successful
agent run. -/
theorem runButton_history_step (inp : RunInput) (ext : External)
    (h : List HistoryEntry) :
    (runButton inp ext h).history =
      if isSuccessfulRun (inp, ext) then h ++ [entryOfRun (inp, ext)] else h := by
  unfold runButton isSuccessfulRun entryOfRun
  cases hg : guardPasses inp <;> cases hd : isDataBranch inp <;>
    rcases hr : ext.agentResult with e | _ | c <;>
    simp [hg, hd, hr]

/-- Helper: a session fold starting from any history equals that
history followed by the entries of the successful runs, in arrival
order. -/
theorem runSession_general (runs : List (RunInput × External))
    (h0 : List HistoryEntry) :
    runs.foldl (fun h r => (runButton r.1 r.2 h).history) h0 =
      h0 ++ (runs.filter isSuccessfulRun).map entryOfRun := by
  induction runs generalizing h0 with
  | nil => simp
  | cons r rest ih =>
      simp only [List.foldl_cons, List.filter_cons]
      rw [runButton_history_step]
      by_cases hs : isSuccessfulRun (r.1, r.2) = true
      · simp [hs, ih]
      · simp [hs] at *
        simp [hs, ih]

/-- C6: after K successful runs in a session the history holds exactly
the K entries of those runs in arrival order, each click leaves the
previous history as an unchanged initial segment (no mutation or
removal), and the Past Results display iterates the history most
recent first. -/
theorem c6_history_invariants (runs : List (RunInput × External)) :
    runSession runs = (runs.filter isSuccessfulRun).map entryOfRun ∧
    (runSession runs).length = (runs.filter isSuccessfulRun).length ∧
    pastResultsDisplay (runSession runs) = (runSession runs).reverse ∧
    ∀ inp ext h, ∃ t, (runButton inp ext h).history = h ++ t := by
  refine ⟨?_, ?_, rfl, ?_⟩
  · simpa using runSession_general runs []
  · simpa using congrArg List.length (runSession_general runs [])
  · intro inp ext h
    rw [runButton_history_step]
    by_cases hs : isSuccessfulRun (inp, ext) = true
    · exact ⟨[entryOfRun (inp, ext)], by simp [hs]⟩
    · exact ⟨[], by simp [hs]⟩

/-- C7: whenever the history is non-empty, both download buttons offer
exactly the result text of the most recent history entry, and the two
file names share the stem and differ only in the extension. -/
theorem c7_export_both_buttons_last_result (history : List HistoryEntry)
    (e : HistoryEntry) (hl : history.getLast? = some e) :
    exportSection history =
      [⟨"📄 Download as Markdown", e.result, "sustainability_report.md"⟩,
       ⟨"📝 Download as Text", e.result, "sustainability_report.txt"⟩] ∧
    (exportSection history).map DownloadButton.data = [e.result, e.result] ∧
    "sustainability_report.md" = "sustainability_report" ++ ".md" ∧
    "sustainability_report.txt" = "sustainability_report" ++ ".txt" := by
  simp [exportSection, hl]

/-- C7 witness at a concrete one-entry history. -/
theorem c7_export_both_buttons_last_result_witness :
    exportSection [⟨"10:00:00", "News Analyst 📰", "air", "report body"⟩] =
      [⟨"📄 Download as Markdown", "report body", "sustainability_report.md"⟩,
       ⟨"📝 Download as Text", "report body", "sustainability_report.txt"⟩] :=
  (c7_export_both_buttons_last_result
    [⟨"10:00:00", "News Analyst 📰", "air", "report body"⟩]
    ⟨"10:00:00", "News Analyst 📰", "air", "report body"⟩ rfl).1

/-- C8: for every outcome of the external load/parse work, the CSV
summary tool returns a text and table pair; on a load/parse error it
returns the error text built at line 29 together with a null table,
and on success the summary text with the table; the function is total
over both outcomes, so no exception propagates to the caller. -/
theorem c8_csv_tool_catches_all :
    (∀ e, CSVAnalysisTool.run (Except.error e) =
      ("❌ Error analyzing dataset: " ++ e, none)) ∧
    (∀ df s, CSVAnalysisTool.run (Except.ok (df, s)) =
      ("📊 Data Analysis Summary:\n" ++ s, some df)) :=
  ⟨fun _ => rfl, fun _ _ => rfl⟩

/-- C9 counterexample: the claim that the registry is constructed
exactly once per process, under an explicit memoization directive,
fails: in a process whose script ran twice (initial load plus one
interaction) the module-level construction ran twice, and the file
holds no caching directive at all. -/
theorem c9_counterexample :
    ¬ (registryConstructions 2 = 1 ∧ registryCacheDirectives ≠ []) := by
  decide

/-- C9 amended: the agent registry is rebuilt by every script
execution — once per page load or interaction — because the
construction at lines 31-81 is plain module-level code with no
memoization or caching directive; within one script execution it is
built exactly once. -/
theorem c9_registry_rebuilt_each_run (scriptRuns : Nat) :
    registryConstructions scriptRuns = scriptRuns ∧
    registryCacheDirectives = [] ∧
    processRegistryTrace scriptRuns =
      List.replicate scriptRuns
        [news_agent.name, data_agent.name, policy_agent.name,
         innovation_agent.name, taskforce_team.name] := by
  refine ⟨?_, rfl, rfl⟩
  simp [registryConstructions, processRegistryTrace]

/-- C10 counterexample: for a Data Analyst run with an uploaded file
that pandas fails to parse, the tool returns a null table, so the
chart at lines 152-156 is not rendered: the claim that the result text
and the chart are rendered on every such run fails; the rendered text
is the error text of the tool. -/
theorem c10_counterexample :
    chartRendered (runButton ⟨"Data Analyst 📊", "", some "garbage", "11:00:00"⟩
      ⟨Except.ok none, Except.error "ParserError", Except.ok ()⟩ []) = false ∧
    (runButton ⟨"Data Analyst 📊", "", some "garbage", "11:00:00"⟩
      ⟨Except.ok none, Except.error "ParserError", Except.ok ()⟩ []).shown =
      [Shown.dataReport ("❌ Error analyzing dataset: " ++ "ParserError") false] := by
  decide

/-- C10 amended: for every run with the Data Analyst selected and a
file uploaded, the run proceeds even with an empty topic, the agent
run operation is never invoked, the uploaded bytes are written to
tmp_uploaded.csv, the CSV tool is called directly on that path, and
nothing is appended to the history; the result text is rendered, and
the chart is rendered exactly when the tool returned a non-null table
and the plotting call succeeded — a null table skips the chart, and a
raising plot (for instance TypeError no numeric data to plot) shows
the exception message as an error after the report text instead of
the chart. -/
theorem c10_data_branch (inp : RunInput) (ext : External)
    (h : List HistoryEntry) (hc : inp.agentChoice = "Data Analyst 📊")
    (hu : inp.uploadedFile.isSome = true) :
    (runButton inp ext h).agentRunCalled = false ∧
    (runButton inp ext h).fileWritten =
      some ("tmp_uploaded.csv", inp.uploadedFile.getD "") ∧
    (runButton inp ext h).csvToolCalledOn = some "tmp_uploaded.csv" ∧
    (runButton inp ext h).history = h ∧
    ((CSVAnalysisTool.run ext.pandas).2 = none →
      (runButton inp ext h).shown =
        [Shown.dataReport (CSVAnalysisTool.run ext.pandas).1 false]) ∧
    (∀ df, (CSVAnalysisTool.run ext.pandas).2 = some df →
      ext.plot = Except.ok () →
      (runButton inp ext h).shown =
        [Shown.dataReport (CSVAnalysisTool.run ext.pandas).1 true]) ∧
    (∀ df e, (CSVAnalysisTool.run ext.pandas).2 = some df →
      ext.plot = Except.error e →
      (runButton inp ext h).shown =
        [Shown.dataReport (CSVAnalysisTool.run ext.pandas).1 false,
         Shown.errorMsg ("❌ Error: " ++ e)]) ∧
    (chartRendered (runButton inp ext h) = true ↔
      (CSVAnalysisTool.run ext.pandas).2.isSome = true ∧
        ext.plot = Except.ok ()) := by
  have hd : isDataBranch inp = true := by simp [isDataBranch, hc, hu]
  have hg : guardPasses inp = true := by simp [guardPasses, hd]
  have hrb : runButton inp ext h =
      ⟨dataBranchShown (CSVAnalysisTool.run ext.pandas) ext.plot, h,
       some ("tmp_uploaded.csv", inp.uploadedFile.getD ""), false,
       some "tmp_uploaded.csv"⟩ := by
    simp [runButton, hg, hd]
  rw [hrb]
  refine ⟨rfl, rfl, rfl, rfl, ?_, ?_, ?_, ?_⟩
  · intro hnone
    simp [dataBranchShown, hnone]
  · intro df hdf hpl
    simp [dataBranchShown, hdf, hpl]
  · intro df e hdf hpl
    simp [dataBranchShown, hdf, hpl]
  · rcases hdf : (CSVAnalysisTool.run ext.pandas).2 with _ | df <;>
      rcases hpl : ext.plot with e | u
    · simp [chartRendered, dataBranchShown, hdf, hpl]
    · simp [chartRendered, dataBranchShown, hdf, hpl]
    · simp [chartRendered, dataBranchShown, hdf, hpl]
    · cases u
      simp [chartRendered, dataBranchShown, hdf, hpl]

/-- C10 amended, witness at a concrete empty-topic upload run with a
well-formed table, on which the chart is rendered. -/
theorem c10_data_branch_witness :
    (runButton ⟨"Data Analyst 📊", "", some "a,b", "12:00:00"⟩
        ⟨Except.error "unused", Except.ok (⟨["a", "b"]⟩, "table"), Except.ok ()⟩ []).agentRunCalled
      = false ∧
    (runButton ⟨"Data Analyst 📊", "", some "a,b", "12:00:00"⟩
        ⟨Except.error "unused", Except.ok (⟨["a", "b"]⟩, "table"), Except.ok ()⟩ []).history
      = [] ∧
    chartRendered (runButton ⟨"Data Analyst 📊", "", some "a,b", "12:00:00"⟩
        ⟨Except.error "unused", Except.ok (⟨["a", "b"]⟩, "table"), Except.ok ()⟩ [])
      = true :=
  ⟨(c10_data_branch ⟨"Data Analyst 📊", "", some "a,b", "12:00:00"⟩
      ⟨Except.error "unused", Except.ok (⟨["a", "b"]⟩, "table"), Except.ok ()⟩ []
      rfl (by decide)).1,
   (c10_data_branch ⟨"Data Analyst 📊", "", some "a,b", "12:00:00"⟩
      ⟨Except.error "unused", Except.ok (⟨["a", "b"]⟩, "table"), Except.ok ()⟩ []
      rfl (by decide)).2.2.2.1,
   (c10_data_branch ⟨"Data Analyst 📊", "", some "a,b", "12:00:00"⟩
      ⟨Except.error "unused", Except.ok (⟨["a", "b"]⟩, "table"), Except.ok ()⟩ []
      rfl (by decide)).2.2.2.2.2.2.2.mpr ⟨rfl, rfl⟩⟩

end MultiAgents
